import Mathlib

/-!
# Verification development for the claims-ebilling platform core

Shallow embedding, in Lean 4, of the parts of the claims-ebilling code base
that the verified properties talk about:

* `app/services/classification/classifier.py` and `rule_engine.py`
  (layered classification of raw invoice lines),
* `app/services/validation/rate_validator.py` (rate-card lookup and amount
  checks),
* `app/services/validation/guideline_validator.py` (structured contract
  guideline evaluation),
* `app/workers/invoice_pipeline.py` (the per-invoice orchestration),
* `app/routers/carrier.py`, `app/routers/supplier.py`, `app/routers/admin.py`
  (invoice approval, resubmission, and mapping-rule override endpoints).

Modelling conventions, used throughout:

* Python `str` values that undergo text processing (descriptions, match
  patterns) are embedded as `List Char` (`PyStr`), with hand-rolled
  structural implementations of `lower`, `strip`, `split`, substring search
  and character removal, so that everything reduces inside the kernel.
  Status labels, taxonomy codes and enum constants are plain `String`s
  compared only for equality.  Lowercasing is ASCII-faithful.
* Python `Decimal` values are exact; the database schema fixes their scale
  (`Numeric(10,4)` quantities and rates, `Numeric(12,2)` amounts).  They are
  embedded as scaled integers: quantities and rates carry 4 decimal places
  (an integer number of 1e-4 units), monetary amounts carry 2 decimal places
  (integer cents).  `confidence_weight` is a float in [0,1]; every weight
  the repository uses is an exact multiple of 0.01, embedded as an integer
  scaled by 100.  Timestamps and dates are integers (an absolute ordinal).
* `re.search` (the Python regex library) is external to the repository and
  is passed as an opaque `PyStr → PyStr → Bool` parameter; an invalid
  pattern that the source skips after catching `re.error` corresponds to the
  parameter returning `false`.
* Database queries are embedded over an in-memory table (a `List` of rows).
  An SQL `ORDER BY` leaves the relative order of rows with equal sort keys
  unspecified; it is realised here by a stable insertion sort
  (`List.insertionSort`), one admissible realisation.
* Human-readable message strings built with f-string interpolation are not
  reproduced verbatim; results carry fixed marker strings (or the raw
  reason value where a property refers to it).
-/

namespace ClaimsEbilling

/-! ## Python string model -/

/-- Python `str` as a list of characters. -/
abbrev PyStr := List Char

/-- ASCII lowercasing, `str.lower()`. -/
def toLowerStr (s : PyStr) : PyStr := s.map Char.toLower

/-- Whitespace as stripped by Python `str.strip()`. -/
def isPyWs (c : Char) : Bool := c = ' ' || c = '\t' || c = '\n' || c = '\r'

/-- Python `str.strip()`. -/
def trimStr (s : PyStr) : PyStr :=
  ((s.dropWhile isPyWs).reverse.dropWhile isPyWs).reverse

/-- `s` begins with `pat`. -/
def startsWithStr : PyStr → PyStr → Bool
  | _, [] => true
  | [], _ :: _ => false
  | c :: cs, p :: ps => c = p && startsWithStr cs ps

/-- Python substring membership, `pat in s`. -/
def containsStr (s pat : PyStr) : Bool :=
  s.tails.any (fun t => startsWithStr t pat)

/-- Split on every character satisfying `p`; Python `re.split` over a
character class (and `str.split(",")` when `p` tests a single comma). -/
def splitOnChar (p : Char → Bool) (s : PyStr) : List PyStr :=
  s.foldr (fun c acc =>
    match acc with
    | [] => if p c then [[], []] else [[c]]
    | g :: gs => if p c then [] :: g :: gs else (c :: g) :: gs) [[]]

/-- Python `str.split(",")`. -/
def splitOnComma (s : PyStr) : List PyStr :=
  splitOnChar (fun c => c = ',') s

/-- `kw.replace(".", "").replace("-", "")`: drop every period and hyphen. -/
def stripDotsDashes (s : PyStr) : PyStr :=
  s.filter (fun c => !(c = '.' || c = '-'))

/-! ## Exact decimal arithmetic -/

/-- Round `num / den` (with `den > 0`) to the nearest integer, ties to even:
the rounding `Decimal.quantize` performs under Python's default
`ROUND_HALF_EVEN` context, on the exact quotient. -/
def roundHalfEvenDiv (num den : ℤ) : ℤ :=
  let q := Int.fdiv num den
  let r := num - q * den
  if 2 * r < den then q
  else if 2 * r > den then q + 1
  else if q % 2 = 0 then q else q + 1

/-! ## Classification (`app/services/classification/`) -/

namespace Classification

/-- A row of the `mapping_rules` table (`app/models/mapping.py`). -/
structure MappingRule where
  id : Nat
  supplierId : Option Nat
  matchType : String
  matchPattern : PyStr
  taxonomyCode : String
  billingComponent : String
  confidenceWeight : ℤ
  confidenceLabel : String
  confirmedBy : String
  version : Nat
  effectiveFrom : ℤ
  effectiveTo : Option ℤ
  supersedesRuleId : Option Nat
  deriving Repr, DecidableEq

/-- `ClassificationResult` (`rule_engine.py`); the `match_explanation` audit
string is not modelled. -/
structure ClassificationResult where
  taxonomyCode : Option String
  billingComponent : Option String
  confidence : String
  confidenceWeight : ℤ
  matchType : Option String
  matchedRuleId : Option Nat
  deriving Repr, DecidableEq

/-- `Classifier._rule_matches` (`classifier.py` lines 110-143): test one
`MappingRule` against the lowered description/code.  `regexSearch` stands for
`re.search`; an unknown `match_type` only logs and never matches. -/
def ruleMatches (regexSearch : PyStr → PyStr → Bool) (rule : MappingRule)
    (descLower codeLower : PyStr) : Bool :=
  let pattern := trimStr (toLowerStr rule.matchPattern)
  if rule.matchType == "exact_code" then
    !codeLower.isEmpty && codeLower == pattern
  else if rule.matchType == "regex_pattern" then
    regexSearch pattern descLower
  else if rule.matchType == "keyword_set" then
    let keywords := (splitOnComma pattern).map trimStr
    keywords.all (fun kw => kw.isEmpty || containsStr descLower kw)
  else false

/-- The WHERE clause of the `MappingRule` query in
`Classifier._classify_from_db`: the rule is currently effective
(`effective_to IS NULL OR effective_to > now`), and the
`supplier_id.in_([supplier_id, None] if supplier_id else [None])` filter.
That `in_` list renders as SQL `supplier_id IN (:sid, NULL)`, and under SQL
three-valued logic `NULL IN (...)` is never true: a NULL-supplier (global)
row never satisfies the filter, so with a supplier only that supplier's own
rules are loaded, and with no supplier the list is `IN (NULL)` and no row
is loaded at all. -/
def ruleActiveFor (now : ℤ) (supplierId : Option Nat) (rule : MappingRule) : Bool :=
  (match rule.effectiveTo with
   | none => true
   | some t => decide (now < t)) &&
  (match supplierId with
   | some sid => rule.supplierId == some sid
   | none => false)

/-- The ORDER BY of the same query: supplier-specific rules first
(`supplier_id IS NULL ASC`), then `confidence_weight` descending.  (Because
the WHERE clause above never admits a NULL-supplier row, the first sort key
is vacuous at runtime; it is kept to mirror the source.) -/
def queryBefore (a b : MappingRule) : Prop :=
  (a.supplierId ≠ none ∧ b.supplierId = none) ∨
  ((a.supplierId = none ↔ b.supplierId = none) ∧ b.confidenceWeight ≤ a.confidenceWeight)

instance : DecidableRel queryBefore := fun a b => by
  unfold queryBefore; infer_instance

/-- `Classifier._classify_from_db` (`classifier.py` lines 61-108): load the
active rules ordered as above, then scan them keeping the match with the
strictly greatest `confidence_weight` seen so far (`best_weight` starts at
-1.0, scaled here to -100). -/
def classifyFromDb (regexSearch : PyStr → PyStr → Bool) (now : ℤ)
    (supplierId : Option Nat) (table : List MappingRule)
    (descLower codeLower : PyStr) : Option ClassificationResult :=
  let rules := (table.filter (ruleActiveFor now supplierId)).insertionSort queryBefore
  rules.foldl
    (fun best rule =>
      if ruleMatches regexSearch rule descLower codeLower &&
          decide ((match best with
                   | none => (-100 : ℤ)
                   | some b => b.confidenceWeight) < rule.confidenceWeight) then
        some { taxonomyCode := some rule.taxonomyCode,
               billingComponent := some rule.billingComponent,
               confidence := rule.confidenceLabel,
               confidenceWeight := rule.confidenceWeight,
               matchType := some rule.matchType,
               matchedRuleId := some rule.id }
      else best)
    none

/-- One entry of `BUILTIN_RULES` (`rule_engine.py`):
`(match_type, match_pattern, taxonomy_code, billing_component, weight)`. -/
structure BuiltinRule where
  matchType : String
  matchPattern : PyStr
  taxonomyCode : String
  billingComponent : String
  weight : ℤ
  deriving Repr, DecidableEq

/-- The keyword list `_compile_rules` precomputes for a `keyword_set` entry:
split on comma or pipe, each piece stripped then lowercased. -/
def builtinKeywords (pattern : PyStr) : List PyStr :=
  (splitOnChar (fun c => c = ',' || c = '|') pattern).map
    (fun k => toLowerStr (trimStr k))

/-- The `keyword_set` test in `classify_with_builtin_rules` (`rule_engine.py`
lines 391-397): every keyword is in the description, either verbatim or with
its periods and hyphens removed. -/
def builtinKeywordHolds (pattern descLower : PyStr) : Bool :=
  (builtinKeywords pattern).all
    (fun kw => containsStr descLower kw || containsStr descLower (stripDotsDashes kw))

/-- `classify_with_builtin_rules` (`rule_engine.py` lines 366-452): scan the
compiled rules keeping the strictly-best weight, then bucket the weight into
a confidence label; with no match, the UNRECOGNIZED result.  Regex entries
whose pattern fails to compile are skipped by `_compile_rules`, which here is
`regexSearch` returning `false`.  `raw_code` is accepted and unused. -/
def classifyWithBuiltinRules (rules : List BuiltinRule)
    (regexSearch : PyStr → PyStr → Bool) (rawDescription : PyStr)
    (rawCode : Option PyStr) : ClassificationResult :=
  let descLower := trimStr (toLowerStr rawDescription)
  let best := rules.foldl
    (fun best rule =>
      let matched :=
        if rule.matchType == "keyword_set" then
          builtinKeywordHolds rule.matchPattern descLower
        else if rule.matchType == "regex_pattern" then
          regexSearch rule.matchPattern descLower
        else false
      if matched then
        match best with
        | none => some rule
        | some b => if b.weight < rule.weight then some rule else best
      else best)
    (none : Option BuiltinRule)
  match best with
  | none =>
      { taxonomyCode := none, billingComponent := none,
        confidence := "UNRECOGNIZED", confidenceWeight := 0,
        matchType := none, matchedRuleId := none }
  | some rule =>
      { taxonomyCode := some rule.taxonomyCode,
        billingComponent := some rule.billingComponent,
        confidence := if 85 ≤ rule.weight then "HIGH"
                      else if 65 ≤ rule.weight then "MEDIUM"
                      else "LOW",
        confidenceWeight := rule.weight,
        matchType := some rule.matchType,
        matchedRuleId := none }

/-- `Classifier.classify` (`classifier.py` lines 40-59): lower and strip the
inputs, consult the DB rules, and fall back to the built-in rules. -/
def classify (regexSearch : PyStr → PyStr → Bool) (now : ℤ)
    (supplierId : Option Nat) (table : List MappingRule)
    (builtinRules : List BuiltinRule) (rawDescription : PyStr)
    (rawCode : Option PyStr) : ClassificationResult :=
  let descLower := trimStr (toLowerStr rawDescription)
  let codeLower := trimStr (toLowerStr (rawCode.getD []))
  match classifyFromDb regexSearch now supplierId table descLower codeLower with
  | some r => r
  | none => classifyWithBuiltinRules builtinRules regexSearch rawDescription rawCode

end Classification

/-! ## Rate validation (`app/services/validation/rate_validator.py`) -/

namespace RateValidation

/-- A row of `rate_cards` (`app/models/supplier.py`): `contracted_rate` and
`max_units` in 1e-4 units, effectivity bounds as day ordinals. -/
structure RateCard where
  id : Nat
  contractId : Nat
  taxonomyCode : String
  contractedRate : ℤ
  maxUnits : Option ℤ
  isAllInclusive : Bool
  effectiveFrom : ℤ
  effectiveTo : Option ℤ
  deriving Repr, DecidableEq

/-- The `LineItem` fields the rate validator reads (`app/models/invoice.py`):
`raw_amount` in cents, `raw_quantity` in 1e-4 units. -/
structure LineItem where
  taxonomyCode : Option String
  billingComponent : Option String
  rawAmount : ℤ
  rawQuantity : ℤ
  rawUnit : Option String
  serviceDate : Option ℤ
  deriving Repr, DecidableEq

/-- `RateValidationResult` (`rate_validator.py` lines 38-53) with the
dataclass defaults.  `expected_value`/`actual_value` are strings in the
source; here they carry the numeric content (cents or 1e-4 units) of that
string, and `expectedValueIsMoney` records whether the source renders
`expected_value` as a `"$..."`-formatted number — the only shape the
pipeline's `float(expected_value.replace("$", "").replace(",", ""))` can
parse.  `_check_amount` writes `"$<amount>"` (parseable); `_check_max_units`
writes `"max <units> units"` and `_check_bundling` writes
`"Not separately billable (all-inclusive rate)"` (both unparseable, so the
flag is false; the bundling text carries no number at all and is `none`
here).  `message` is a fixed marker. -/
structure RateValidationResult where
  validationType : String := "RATE"
  rateCardId : Option Nat := none
  guidelineId : Option Nat := none
  status : String := "PASS"
  severity : String := "ERROR"
  message : String := ""
  expectedValue : Option ℤ := none
  expectedValueIsMoney : Bool := true
  actualValue : Option ℤ := none
  requiredAction : String := "NONE"
  deriving Repr, DecidableEq

/-- `AMOUNT_TOLERANCE = Decimal("0.02")` (`rate_validator.py` line 35), in
cents. -/
def AMOUNT_TOLERANCE : ℤ := 2

/-- The filter of the rate-card query in `RateValidator._find_rate_card`
(lines 139-150): contract and taxonomy code match and
`effective_from ≤ service_date ≤ (effective_to or ∞)`. -/
def cardEligible (contractId : Nat) (taxonomyCode : Option String)
    (serviceDate : ℤ) (c : RateCard) : Bool :=
  c.contractId == contractId &&
  some c.taxonomyCode == taxonomyCode &&
  decide (c.effectiveFrom ≤ serviceDate) &&
  (match c.effectiveTo with
   | none => true
   | some t => decide (serviceDate ≤ t))

/-- The ORDER BY of the same query: `effective_from` descending. -/
def cardBefore (a b : RateCard) : Prop :=
  b.effectiveFrom ≤ a.effectiveFrom

instance : DecidableRel cardBefore := fun a b => by
  unfold cardBefore; infer_instance

instance : IsTotal RateCard cardBefore :=
  ⟨fun a b => Int.le_total b.effectiveFrom a.effectiveFrom⟩

instance : IsTrans RateCard cardBefore :=
  ⟨fun _ _ _ hab hbc => le_trans hbc hab⟩

/-- `RateValidator._find_rate_card` (lines 130-156): among eligible cards of
the contract, the first under the descending `effective_from` order;
`service_date` defaults to today when the line carries none. -/
def findRateCard (cards : List RateCard) (today : ℤ) (li : LineItem)
    (contractId : Nat) : Option RateCard :=
  let serviceDate := li.serviceDate.getD today
  let candidates := cards.filter (cardEligible contractId li.taxonomyCode serviceDate)
  (candidates.insertionSort cardBefore).head?

/-- `RateValidator._check_amount` (lines 158-213): expected amount is
`quantity × contracted_rate` quantized half-even to cents (the 1e-4 × 1e-4
product divided by 1e6); compare the billed cents against it with the $0.02
tolerance. -/
def checkAmount (li : LineItem) (card : RateCard) : RateValidationResult :=
  let expected := roundHalfEvenDiv (li.rawQuantity * card.contractedRate) 1000000
  let billed := li.rawAmount
  let diff := billed - expected
  if |diff| ≤ AMOUNT_TOLERANCE then
    { rateCardId := some card.id, status := "PASS", severity := "INFO",
      message := "amount validated", expectedValue := some expected,
      actualValue := some billed, requiredAction := "NONE" }
  else if AMOUNT_TOLERANCE < diff then
    { rateCardId := some card.id, status := "FAIL", severity := "ERROR",
      message := "billed amount exceeds contracted rate",
      expectedValue := some expected, actualValue := some billed,
      requiredAction := "ACCEPT_REDUCTION" }
  else
    { rateCardId := some card.id, status := "WARNING", severity := "WARNING",
      message := "billed amount is less than contracted rate",
      expectedValue := some expected, actualValue := some billed,
      requiredAction := "NONE" }

/-- `RateValidator._check_max_units` (lines 215-241).  Its
`expected_value` is the plain text `"max <units> units"`, not a dollar
amount, so `expectedValueIsMoney` is false. -/
def checkMaxUnits (li : LineItem) (card : RateCard) (maxUnits : ℤ) :
    RateValidationResult :=
  if maxUnits < li.rawQuantity then
    { rateCardId := some card.id, status := "FAIL", severity := "ERROR",
      message := "quantity exceeds contract maximum",
      expectedValue := some maxUnits, expectedValueIsMoney := false,
      actualValue := some li.rawQuantity,
      requiredAction := "ACCEPT_REDUCTION" }
  else
    { rateCardId := some card.id, status := "PASS", severity := "INFO",
      message := "quantity within contract maximum",
      requiredAction := "NONE" }

/-- The travel/expense components `_check_bundling` flags (lines 250-255). -/
def travelComponents : List String :=
  ["TRAVEL_TRANSPORT", "TRAVEL_LODGING", "TRAVEL_MEALS", "MILEAGE"]

/-- `RateValidator._check_bundling` (lines 243-272): on an all-inclusive rate
card, a travel billing component fails with `REUPLOAD`.  Its
`expected_value` is the constant text
`"Not separately billable (all-inclusive rate)"`, which carries no number
(`none` here) and is not a dollar amount. -/
def checkBundling (li : LineItem) (card : RateCard) :
    Option RateValidationResult :=
  match li.billingComponent with
  | some bc =>
      if travelComponents.contains bc then
        some { rateCardId := some card.id, status := "FAIL",
               severity := "ERROR",
               message := "not separately billable under all-inclusive rate",
               expectedValue := none, expectedValueIsMoney := false,
               actualValue := some li.rawAmount,
               requiredAction := "REUPLOAD" }
      else none
  | none => none

/-- `RateValidator.validate` (lines 68-126): guard on a missing taxonomy
code, look up the rate card (single FAIL finding when none), then the
amount, max-units and bundling checks. -/
def validate (cards : List RateCard) (today : ℤ) (li : LineItem)
    (contractId : Nat) : List RateValidationResult :=
  match li.taxonomyCode with
  | none =>
      [{ status := "FAIL", severity := "ERROR",
         message := "line item could not be classified to a taxonomy code",
         requiredAction := "REQUEST_RECLASSIFICATION" }]
  | some _ =>
      match findRateCard cards today li contractId with
      | none =>
          [{ status := "FAIL", severity := "ERROR",
             message := "no contracted rate found for this service",
             requiredAction := "REQUEST_RECLASSIFICATION" }]
      | some card =>
          [checkAmount li card] ++
          (match card.maxUnits with
           | some m => [checkMaxUnits li card m]
           | none => []) ++
          (if card.isAllInclusive then
            match checkBundling li card with
            | some r => [r]
            | none => []
          else [])

end RateValidation

/-! ## Guideline validation (`app/services/validation/guideline_validator.py`) -/

namespace GuidelineValidation

/-- The `rule_params` JSONB payload of a guideline, with each key the v1 rule
handlers read; an absent key is `none` (the handlers catch the `KeyError`).
Quantities (`max`, `min_increment`) in 1e-4 units, `max_amount` in cents. -/
structure GuidelineParams where
  max : Option ℤ := none
  period : Option String := none
  required : Option Bool := none
  minIncrement : Option ℤ := none
  unit : Option String := none
  prohibitedComponents : List String := []
  maxAmount : Option ℤ := none
  deriving Repr, DecidableEq

/-- A row of `guidelines` (`app/models/supplier.py`). -/
structure Guideline where
  id : Nat
  taxonomyCode : Option String
  domain : Option String
  ruleType : String
  ruleParams : GuidelineParams
  severity : String
  narrativeSource : Option String
  deriving Repr, DecidableEq

/-- `GuidelineValidationResult` (`guideline_validator.py` lines 38-50) with
the dataclass defaults. -/
structure GuidelineValidationResult where
  validationType : String := "GUIDELINE"
  rateCardId : Option Nat := none
  guidelineId : Option Nat := none
  status : String := "PASS"
  severity : String := "ERROR"
  message : String := ""
  expectedValue : Option ℤ := none
  actualValue : Option ℤ := none
  requiredAction : String := "NONE"
  deriving Repr, DecidableEq

/-- First dot-segment of a taxonomy code, `code.split(".")[0]`. -/
def firstDotSegment (s : String) : String :=
  ⟨s.data.takeWhile (fun c => !(c = '.'))⟩

/-- `GuidelineValidator._applies_to` (lines 82-93).  Note the Python
truthiness test `line_item.taxonomy_code`: with a domain-scoped guideline and
a line whose code is `None` or empty, control falls through to the global
`return True`. -/
def appliesTo (g : Guideline) (li : RateValidation.LineItem) : Bool :=
  match g.taxonomyCode with
  | some tc => li.taxonomyCode == some tc
  | none =>
      match g.domain, li.taxonomyCode with
      | some d, some tc =>
          if tc == "" then true else firstDotSegment tc == d
      | some _, none => true
      | none, _ => true

/-- `_check_max_units` (lines 141-174): missing/invalid `max` is a logged
no-finding; over the maximum fails with the guideline's severity, and
`ACCEPT_REDUCTION` only at ERROR severity. -/
def checkMaxUnits (g : Guideline) (li : RateValidation.LineItem) :
    Option GuidelineValidationResult :=
  match g.ruleParams.max with
  | none => none
  | some m =>
      if m < li.rawQuantity then
        some { guidelineId := some g.id, status := "FAIL",
               severity := g.severity,
               message := "quantity exceeds contract guideline maximum",
               expectedValue := some m, actualValue := some li.rawQuantity,
               requiredAction :=
                 if g.severity == "ERROR" then "ACCEPT_REDUCTION" else "NONE" }
      else none

/-- `_check_requires_auth` (lines 176-202): v1 always warns asking for
documentation unless `required` is explicitly false. -/
def checkRequiresAuth (g : Guideline) (_li : RateValidation.LineItem) :
    Option GuidelineValidationResult :=
  if !(g.ruleParams.required.getD true) then none
  else
    some { guidelineId := some g.id, status := "WARNING",
           severity := "WARNING",
           message := "service may require prior authorization",
           requiredAction := "ATTACH_DOC" }

/-- `_check_billing_increment` (lines 204-237).  A zero increment makes the
Python `qty % min_increment` raise, which the dispatcher's `except` converts
into a finding; that exception is the `.error` value here.  `Decimal.__mod__`
takes the sign of the dividend, matching `Int.tmod`; the 0.001 tolerance is
10 in 1e-4 units. -/
def checkBillingIncrement (g : Guideline) (li : RateValidation.LineItem) :
    Except Unit (Option GuidelineValidationResult) :=
  match g.ruleParams.minIncrement with
  | none => .ok none
  | some inc =>
      if inc = 0 then .error ()
      else
        let remainder := Int.tmod li.rawQuantity inc
        if 10 < remainder then
          .ok (some { guidelineId := some g.id, status := "FAIL",
                      severity := g.severity,
                      message := "quantity is not a valid billing increment",
                      actualValue := some li.rawQuantity,
                      requiredAction := "REUPLOAD" })
        else .ok none

/-- `_check_bundling_prohibition` (lines 239-263); `None in prohibited` is
false in Python. -/
def checkBundlingProhibition (g : Guideline) (li : RateValidation.LineItem) :
    Option GuidelineValidationResult :=
  match li.billingComponent with
  | some bc =>
      if g.ruleParams.prohibitedComponents.contains bc then
        some { guidelineId := some g.id, status := "FAIL",
               severity := g.severity,
               message := "billing component not separately billable",
               requiredAction := "REUPLOAD" }
      else none
  | none => none

/-- `_check_cap_amount` (lines 265-292). -/
def checkCapAmount (g : Guideline) (li : RateValidation.LineItem) :
    Option GuidelineValidationResult :=
  match g.ruleParams.maxAmount with
  | none => none
  | some cap =>
      if cap < li.rawAmount then
        some { guidelineId := some g.id, status := "FAIL",
               severity := g.severity,
               message := "billed amount exceeds contract cap",
               expectedValue := some cap, actualValue := some li.rawAmount,
               requiredAction := "ACCEPT_REDUCTION" }
      else none

/-- The rule types `_evaluate` dispatches on. -/
def knownRuleTypes : List String :=
  ["max_units", "requires_auth", "billing_increment",
   "bundling_prohibition", "cap_amount"]

/-- The body of the `try` block in `_evaluate` (lines 104-121): dispatch to
the handler; an unknown `rule_type` only logs a warning and yields no
finding.  A Python exception escaping a handler is the `.error` value. -/
def evaluateInner (g : Guideline) (li : RateValidation.LineItem) :
    Except Unit (Option GuidelineValidationResult) :=
  if g.ruleType == "max_units" then .ok (checkMaxUnits g li)
  else if g.ruleType == "requires_auth" then .ok (checkRequiresAuth g li)
  else if g.ruleType == "billing_increment" then checkBillingIncrement g li
  else if g.ruleType == "bundling_prohibition" then .ok (checkBundlingProhibition g li)
  else if g.ruleType == "cap_amount" then .ok (checkCapAmount g li)
  else .ok none

/-- `GuidelineValidator._evaluate` (lines 97-137): the `except Exception`
clause converts any handler exception into a single WARNING finding asking
for carrier review. -/
def evaluate (g : Guideline) (li : RateValidation.LineItem) :
    Option GuidelineValidationResult :=
  match evaluateInner g li with
  | .ok r => r
  | .error _ =>
      some { guidelineId := some g.id, status := "WARNING",
             severity := "WARNING",
             message := "guideline check could not be evaluated; carrier review required",
             requiredAction := "NONE" }

/-- `GuidelineValidator.validate` (lines 62-78): evaluate every applicable
guideline, keeping the findings. -/
def validate (li : RateValidation.LineItem) (guidelines : List Guideline) :
    List GuidelineValidationResult :=
  guidelines.filterMap (fun g => if appliesTo g li then evaluate g li else none)

end GuidelineValidation

/-! ## Invoice pipeline (`app/workers/invoice_pipeline.py`) -/

namespace Pipeline

/-- `RawLineItem` (`app/services/ingestion/base.py`), the normalized parser
output row: `raw_amount` in cents, `raw_quantity` in 1e-4 units. -/
structure RawLineItem where
  lineNumber : Nat
  rawDescription : PyStr
  rawCode : Option PyStr := none
  rawAmount : ℤ
  rawQuantity : ℤ := 10000
  rawUnit : Option String := none
  claimNumber : Option String := none
  serviceDate : Option ℤ := none
  deriving Repr, DecidableEq

/-- `ParseResult` (ingestion); only the fields the pipeline reads. -/
structure ParseResult where
  lineItems : List RawLineItem
  rawText : PyStr := []
  warnings : List String := []
  deriving Repr, DecidableEq

/-- An `audit_events` row as written by
`audit.log_invoice_status_changed` (`app/services/audit/logger.py` lines
115-135); the payload's statuses are lifted into fields. -/
structure AuditEvent where
  entityType : String
  entityId : Nat
  eventType : String
  fromStatus : Option String := none
  toStatus : Option String := none
  deriving Repr, DecidableEq

/-- The invoice header fields the pipeline touches. -/
structure PInvoice where
  id : Nat
  status : String
  currentVersion : Nat
  deriving Repr, DecidableEq

/-- The per-line row of `line_items` that `_process_line` creates and
mutates. -/
structure PLineItem where
  invoiceId : Nat
  invoiceVersion : Nat
  lineNumber : Nat
  status : String
  rawDescription : PyStr
  rawCode : Option PyStr := none
  rawAmount : ℤ
  rawQuantity : ℤ
  rawUnit : Option String := none
  claimNumber : Option String := none
  serviceDate : Option ℤ := none
  taxonomyCode : Option String := none
  billingComponent : Option String := none
  mappingConfidence : Option String := none
  mappingRuleId : Option Nat := none
  expectedAmount : Option ℤ := none
  deriving Repr, DecidableEq

/-- A persisted `validation_results` row, as written by `_process_line`
(only the fields the pipeline sets). -/
structure VRow where
  validationType : String
  rateCardId : Option Nat := none
  guidelineId : Option Nat := none
  status : String
  severity : String
  requiredAction : String
  deriving Repr, DecidableEq

/-- A persisted `exception_records` row. -/
structure ERow where
  status : String
  deriving Repr, DecidableEq

/-- The transactional state a pipeline run reads and writes: the invoice
row, the `line_items` created so far, and the append-only audit trail. -/
structure PState where
  invoice : PInvoice
  lineItems : List PLineItem
  auditEvents : List AuditEvent
  deriving Repr, DecidableEq

/-- The summary dict a pipeline entry point returns; `error` is the
human-readable reason of a failed run. -/
structure PResult where
  invoiceId : Nat
  error : Option String := none
  deriving Repr, DecidableEq

/-- The audit event `log_invoice_status_changed` appends. -/
def statusChangedEvent (invoiceId : Nat) (fromStatus toStatus : String) :
    AuditEvent :=
  { entityType := "invoice", entityId := invoiceId,
    eventType := "invoice.status_changed",
    fromStatus := some fromStatus, toStatus := some toStatus }

/-- `_fail_invoice` (`invoice_pipeline.py` lines 450-458): set the invoice
status to REVIEW_REQUIRED, commit, and return the error summary.  No audit
event is written and no line items are touched. -/
def failInvoice (st : PState) (reason : String) : PState × PResult :=
  ({ st with invoice := { st.invoice with status := "REVIEW_REQUIRED" } },
   { invoiceId := st.invoice.id, error := some reason })

/-- `process_invoice_sync` (`invoice_pipeline.py` lines 62-115) up to the
parse step: transition to PROCESSING (with its audit event), then parse.
`parseOutcome` is the result of `parser.parse` — `.error` covers both a
`ParseError` and the PDF stub's `NotImplementedError`, which the source
routes identically into `_fail_invoice`.  The post-parse remainder
`_run_pipeline` is the `runPipeline` parameter. -/
def processInvoiceSync (runPipeline : PState → ParseResult → PState × PResult)
    (parseOutcome : Except String ParseResult) (st : PState) :
    PState × PResult :=
  let st1 : PState :=
    { st with
      invoice := { st.invoice with status := "PROCESSING" },
      auditEvents := st.auditEvents ++
        [statusChangedEvent st.invoice.id st.invoice.status "PROCESSING"] }
  match parseOutcome with
  | .error reason => failInvoice st1 reason
  | .ok parseResult => runPipeline st1 parseResult

/-- What `_process_line` (lines 282-444) leaves behind for one raw line. -/
structure LineOutcome where
  line : PLineItem
  validationResults : List VRow
  exceptionRecords : List ERow
  errorCount : Nat
  warningCount : Nat
  expectedAmount : ℤ
  deriving Repr, DecidableEq

/-- Fold one persisted rate finding into the running `_process_line`
accumulators (lines 370-404): persist the row, open an exception and bump
the error count on FAIL, bump the warning count on WARNING.  On a FAIL the
source tries `expected_amount = float(expected_value.replace("$",
"").replace(",", ""))` guarded by `if rate_result.expected_value:` — an
absent (or empty, hence falsy) value skips the attempt (`none` here), and a
non-dollar text such as `_check_max_units`'s `"max <units> units"` raises
`ValueError`, caught by the surrounding `except`, leaving the running value
unchanged; only a `"$..."`-formatted value (`expectedValueIsMoney`)
actually updates it. -/
def foldRateResult (acc : List VRow × List ERow × Nat × Nat × ℤ)
    (r : RateValidation.RateValidationResult) :
    List VRow × List ERow × Nat × Nat × ℤ :=
  let (vrows, erows, errs, warns, expected) := acc
  let vrows := vrows ++
    [{ validationType := r.validationType, rateCardId := r.rateCardId,
       status := r.status, severity := r.severity,
       requiredAction := r.requiredAction }]
  if r.status == "FAIL" then
    (vrows, erows ++ [{ status := "OPEN" }], errs + 1, warns,
     match r.expectedValue with
     | some v => if r.expectedValueIsMoney then v else expected
     | none => expected)
  else if r.status == "WARNING" then
    (vrows, erows, errs, warns + 1, expected)
  else
    (vrows, erows, errs, warns, expected)

/-- Fold one persisted guideline finding (lines 409-436): same persistence
pattern, without the `expected_amount` update. -/
def foldGuidelineResult (acc : List VRow × List ERow × Nat × Nat)
    (r : GuidelineValidation.GuidelineValidationResult) :
    List VRow × List ERow × Nat × Nat :=
  let (vrows, erows, errs, warns) := acc
  let vrows := vrows ++
    [{ validationType := r.validationType, guidelineId := r.guidelineId,
       status := r.status, severity := r.severity,
       requiredAction := r.requiredAction }]
  if r.status == "FAIL" then
    (vrows, erows ++ [{ status := "OPEN" }], errs + 1, warns)
  else if r.status == "WARNING" then
    (vrows, erows, errs, warns + 1)
  else
    (vrows, erows, errs, warns)

/-- The validator view of a pipeline line row. -/
def toValidatorLine (li : PLineItem) : RateValidation.LineItem :=
  { taxonomyCode := li.taxonomyCode, billingComponent := li.billingComponent,
    rawAmount := li.rawAmount, rawQuantity := li.rawQuantity,
    rawUnit := li.rawUnit, serviceDate := li.serviceDate }

/-- `_process_line` (`invoice_pipeline.py` lines 282-444).  The classifier
call's outcome is the `classifyResult` argument (its `except` arm is not
modelled: `Classifier.classify` never raises); the rate and guideline
validator services are the function arguments.  On an UNRECOGNIZED
classification the function records one CLASSIFICATION FAIL row plus one
OPEN exception, marks the line EXCEPTION and returns without consulting
either validator. -/
def processLine (classifyResult : Classification.ClassificationResult)
    (rateValidate : RateValidation.LineItem → List RateValidation.RateValidationResult)
    (guidelineValidate : RateValidation.LineItem → List GuidelineValidation.GuidelineValidationResult)
    (invoiceId : Nat) (invoiceVersion : Nat) (raw : RawLineItem) : LineOutcome :=
  let line0 : PLineItem :=
    { invoiceId := invoiceId, invoiceVersion := invoiceVersion,
      lineNumber := raw.lineNumber, status := "PENDING",
      rawDescription := raw.rawDescription, rawCode := raw.rawCode,
      rawAmount := raw.rawAmount, rawQuantity := raw.rawQuantity,
      rawUnit := raw.rawUnit, claimNumber := raw.claimNumber,
      serviceDate := raw.serviceDate }
  let line1 : PLineItem :=
    { line0 with
      taxonomyCode := classifyResult.taxonomyCode,
      billingComponent := classifyResult.billingComponent,
      mappingConfidence :=
        some (if classifyResult.confidence == "UNRECOGNIZED" then "LOW"
              else classifyResult.confidence),
      mappingRuleId := classifyResult.matchedRuleId,
      status := "CLASSIFIED" }
  if classifyResult.confidence == "UNRECOGNIZED" then
    { line := { line1 with status := "EXCEPTION" },
      validationResults :=
        [{ validationType := "CLASSIFICATION", status := "FAIL",
           severity := "ERROR",
           requiredAction := "REQUEST_RECLASSIFICATION" }],
      exceptionRecords := [{ status := "OPEN" }],
      errorCount := 1, warningCount := 0, expectedAmount := 0 }
  else
    let rateResults := rateValidate (toValidatorLine line1)
    let (vrows1, erows1, errs1, warns1, expected1) :=
      rateResults.foldl foldRateResult ([], [], 0, 0, raw.rawAmount)
    let guideResults := guidelineValidate (toValidatorLine line1)
    let (vrows2, erows2, errs2, warns2) :=
      guideResults.foldl foldGuidelineResult (vrows1, erows1, errs1, warns1)
    { line := { line1 with
        status := if 0 < errs2 then "EXCEPTION" else "VALIDATED",
        expectedAmount := some expected1 },
      validationResults := vrows2,
      exceptionRecords := erows2,
      errorCount := errs2, warningCount := warns2,
      expectedAmount := expected1 }

end Pipeline

/-! ## Carrier review (`app/routers/carrier.py`) -/

namespace Carrier

/-- An `exception_records` row as the approval endpoint sees it. -/
structure ExceptionRec where
  id : Nat
  status : String
  resolutionAction : Option String := none
  resolutionNotes : Option String := none
  resolvedAt : Option ℤ := none
  resolvedByUserId : Option Nat := none
  deriving Repr, DecidableEq

/-- A line item with its exceptions. -/
structure CLine where
  id : Nat
  status : String
  exceptions : List ExceptionRec
  deriving Repr, DecidableEq

/-- An invoice with its line items. -/
structure CInvoice where
  id : Nat
  invoiceNumber : String
  status : String
  lines : List CLine
  deriving Repr, DecidableEq

/-- Python `payload.notes or default`: `None` and the empty string both fall
back to the default. -/
def pyOrStr (s : Option String) (default : String) : String :=
  match s with
  | none => default
  | some v => if v == "" then default else v

/-- The force-waive loop of `approve_carrier_invoice` (`carrier.py` lines
146-155) applied to one exception: an OPEN exception becomes WAIVED with
resolution action WAIVED; every other exception is untouched. -/
def waiveIfOpen (notes : Option String) (now : ℤ) (userId : Nat)
    (e : ExceptionRec) : ExceptionRec :=
  if e.status == "OPEN" then
    { e with
      status := "WAIVED", resolutionAction := some "WAIVED",
      resolutionNotes := some (pyOrStr notes "Waived on invoice approval"),
      resolvedAt := some now, resolvedByUserId := some userId }
  else e

/-- The `_approvable` line statuses (`carrier.py` lines 158-163). -/
def approvableStatuses : List String :=
  ["VALIDATED", "OVERRIDE", "RESOLVED", "EXCEPTION"]

/-- `approve_carrier_invoice` (`carrier.py` lines 115-182), from the status
guard on: reject any status other than PENDING_CARRIER_REVIEW or
CARRIER_REVIEWING with a 409 conflict; otherwise waive every remaining OPEN
exception, promote the approvable lines, and set the invoice APPROVED.
Carrier-ownership lookup and the audit/commit plumbing are outside the
property and not modelled. -/
def approveInvoice (inv : CInvoice) (notes : Option String) (now : ℤ)
    (userId : Nat) : Except String CInvoice :=
  if !(inv.status == "PENDING_CARRIER_REVIEW" || inv.status == "CARRIER_REVIEWING") then
    .error "409: invoice must be in PENDING_CARRIER_REVIEW or CARRIER_REVIEWING"
  else
    let waived := inv.lines.map
      (fun li => { li with exceptions := li.exceptions.map (waiveIfOpen notes now userId) })
    let promoted := waived.map
      (fun li => if approvableStatuses.contains li.status then
                   { li with status := "APPROVED" }
                 else li)
    .ok { inv with status := "APPROVED", lines := promoted }

end Carrier

/-! ## Supplier submission (`app/routers/supplier.py`) -/

namespace Supplier

/-- The invoice fields the upload/resubmit endpoints touch;
`versionNumbers` lists the `version_number` of each `InvoiceVersion` row. -/
structure SInvoice where
  id : Nat
  status : String
  currentVersion : Nat
  versionNumbers : List Nat
  deriving Repr, DecidableEq

/-- `upload_invoice_file` (`supplier.py` lines 130-213), from the status
guard on: reject any status other than DRAFT or REVIEW_REQUIRED with a 409
conflict; otherwise store the file (not modelled), mark the invoice
SUBMITTED, create the `InvoiceVersion` row for `current_version`, and run
the synchronous pipeline (`runPipeline`, which sets the final status). -/
def uploadInvoiceFile (runPipeline : SInvoice → SInvoice) (inv : SInvoice) :
    Except String SInvoice :=
  if !(inv.status == "DRAFT" || inv.status == "REVIEW_REQUIRED") then
    .error "409: only DRAFT or REVIEW_REQUIRED invoices accept new uploads"
  else
    let submitted : SInvoice :=
      { inv with
        status := "SUBMITTED",
        versionNumbers := inv.versionNumbers ++ [inv.currentVersion] }
    .ok (runPipeline submitted)

/-- `resubmit_invoice` (`supplier.py` lines 264-291): reject any status other
than REVIEW_REQUIRED or SUPPLIER_RESPONDED with a 409 conflict; otherwise
bump `current_version` and delegate to the upload handler. -/
def resubmitInvoice (runPipeline : SInvoice → SInvoice) (inv : SInvoice) :
    Except String SInvoice :=
  if !(inv.status == "REVIEW_REQUIRED" || inv.status == "SUPPLIER_RESPONDED") then
    .error "409: resubmission not allowed in this status"
  else
    uploadInvoiceFile runPipeline { inv with currentVersion := inv.currentVersion + 1 }

end Supplier

/-! ## Carrier mapping override (`app/routers/admin.py`) -/

namespace Admin

open Classification

/-- The filter of the "existing active rule" query in `override_mapping`
(`admin.py` lines 115-124): same pattern, `keyword_set` match type, open
effectivity, same supplier scope. -/
def matchesOverrideKey (pattern : PyStr) (supplierId : Option Nat)
    (r : MappingRule) : Bool :=
  decide (r.matchPattern = pattern) && decide (r.matchType = "keyword_set") &&
  decide (r.effectiveTo = none) && decide (r.supplierId = supplierId)

/-- The `mapping_rules` table plus the id the next INSERT receives. -/
structure AdminState where
  rules : List MappingRule
  nextId : Nat
  deriving Repr, DecidableEq

/-- `override_mapping` (`admin.py` lines 81-151), the persistent-rule part
(scope `this_supplier` or `global`): expire the currently active matching
rule by setting only its `effective_to`, then insert the new
CARRIER_OVERRIDE rule with weight 1.0 (scaled 100), label HIGH,
`supersedes_rule_id` the old id and `version` one more than the old (1 when
there was no old rule).  The line-item update and audit writes are outside
the property. -/
def overrideMapping (st : AdminState) (supplierId : Option Nat)
    (pattern : PyStr) (taxonomyCode billingComponent : String) (now : ℤ) :
    AdminState :=
  let existing := st.rules.find? (matchesOverrideKey pattern supplierId)
  let expired := match existing with
    | none => st.rules
    | some ex => st.rules.map
        (fun r => if r.id = ex.id then { r with effectiveTo := some now } else r)
  let newRule : MappingRule :=
    { id := st.nextId, supplierId := supplierId, matchType := "keyword_set",
      matchPattern := pattern, taxonomyCode := taxonomyCode,
      billingComponent := billingComponent, confidenceWeight := 100,
      confidenceLabel := "HIGH", confirmedBy := "CARRIER_OVERRIDE",
      version := (match existing with
                  | some ex => ex.version + 1
                  | none => 1),
      effectiveFrom := now, effectiveTo := none,
      supersedesRuleId := (match existing with
                           | some ex => some ex.id
                           | none => none) }
  { rules := expired ++ [newRule], nextId := st.nextId + 1 }

/-- Walk the `supersedes_rule_id` chain from a rule, collecting ids
(`fuel`-bounded lookup in the table). -/
def chainIds (rules : List MappingRule) : Nat → MappingRule → List Nat
  | 0, r => [r.id]
  | fuel + 1, r =>
      r.id :: (match r.supersedesRuleId with
        | none => []
        | some pid =>
            match rules.find? (fun x => decide (x.id = pid)) with
            | none => []
            | some p => chainIds rules fuel p)

/-- The per-step override arguments: taxonomy code, billing component and
the wall-clock time of the call. -/
structure OverrideArgs where
  taxonomyCode : String
  billingComponent : String
  time : ℤ

/-- `n` successive carrier overrides of the same `(supplier, pattern,
keyword_set)` mapping against a fresh table. -/
def overrideSeq (supplierId : Option Nat) (pattern : PyStr)
    (args : Nat → OverrideArgs) : Nat → AdminState
  | 0 => { rules := [], nextId := 0 }
  | n + 1 =>
      overrideMapping (overrideSeq supplierId pattern args n) supplierId pattern
        (args n).taxonomyCode (args n).billingComponent (args n).time

/-- The closed form of the rule the `k`-th override (0-based) leaves in a
table that has seen `n` overrides in total: created at step `k`, expired by
step `k+1` unless it is the newest. -/
def ruleAt (supplierId : Option Nat) (pattern : PyStr)
    (args : Nat → OverrideArgs) (n k : Nat) : MappingRule :=
  { id := k, supplierId := supplierId, matchType := "keyword_set",
    matchPattern := pattern, taxonomyCode := (args k).taxonomyCode,
    billingComponent := (args k).billingComponent, confidenceWeight := 100,
    confidenceLabel := "HIGH", confirmedBy := "CARRIER_OVERRIDE",
    version := k + 1, effectiveFrom := (args k).time,
    effectiveTo := if k + 1 = n then none else some (args (k + 1)).time,
    supersedesRuleId := if k = 0 then none else some (k - 1) }

end Admin

/-! ## The keyword-set semantics the specification states

For the refinement comparison of claim C5, the match predicate exactly as
the specification words it: the pattern is a comma-separated bag of
keywords; every keyword must occur as a substring of the lowercased
description, and a keyword also counts as present when the keyword with its
hyphens and periods removed occurs in the description. -/

/-- Keyword-set matching as specified (§4.3 Match semantics), over the
already-lowercased description, with the same pattern normalisation
(lowercase, strip, comma-split, strip) the rule paths use. -/
def specKeywordSetMatch (pattern descLower : PyStr) : Bool :=
  ((splitOnComma (trimStr (toLowerStr pattern))).map trimStr).all
    (fun kw => kw.isEmpty || containsStr descLower kw ||
      containsStr descLower (stripDotsDashes kw))

/-! ## Sample data for concrete instantiations -/

/-- An invoice awaiting carrier review: a clean line, an exception line with
an open exception, and a denied line with a resolved exception. -/
def sampleApproveInvoice : Carrier.CInvoice :=
  { id := 1, invoiceNumber := "INV-1", status := "PENDING_CARRIER_REVIEW",
    lines :=
      [{ id := 1, status := "VALIDATED", exceptions := [] },
       { id := 2, status := "EXCEPTION",
         exceptions := [{ id := 10, status := "OPEN" }] },
       { id := 3, status := "DENIED",
         exceptions :=
           [{ id := 11,
              status := "RESOLVED",
              resolutionAction := some "ACCEPTED_REDUCTION" }] }] }

/-- A guideline with a rule type no v1 handler knows. -/
def sampleUnknownGuideline : GuidelineValidation.Guideline :=
  { id := 21, taxonomyCode := none, domain := none,
    ruleType := "percentage_cap", ruleParams := {}, severity := "ERROR",
    narrativeSource := none }

/-- A `billing_increment` guideline whose zero increment makes the Python
`qty % min_increment` raise inside the handler. -/
def sampleZeroIncrementGuideline : GuidelineValidation.Guideline :=
  { id := 22, taxonomyCode := none, domain := none,
    ruleType := "billing_increment",
    ruleParams := { minIncrement := some 0 }, severity := "ERROR",
    narrativeSource := none }

/-- A classified line item: 1.3000 hours of record retrieval at $95.00. -/
def sampleGuidelineLine : RateValidation.LineItem :=
  { taxonomyCode := some "REC.MED_RECORDS.RETRIEVAL_FEE",
    billingComponent := some "RETRIEVAL_FEE", rawAmount := 9500,
    rawQuantity := 13000, rawUnit := some "hour", serviceDate := none }

/-- A classified exam line with service date day 100. -/
def sampleRateLine : RateValidation.LineItem :=
  { taxonomyCode := some "IME.PHY_EXAM.PROF_FEE",
    billingComponent := some "PROF_FEE", rawAmount := 22500,
    rawQuantity := 15000, rawUnit := none, serviceDate := some 100 }

/-- A rate card whose `effective_to` expired the day before the sample
line's service date. -/
def sampleExpiredCard : RateValidation.RateCard :=
  { id := 1, contractId := 1, taxonomyCode := "IME.PHY_EXAM.PROF_FEE",
    contractedRate := 1400000, maxUnits := none, isAllInclusive := false,
    effectiveFrom := 0, effectiveTo := some 99 }

/-- A rate card effective exactly on the sample line's service date. -/
def sampleBoundaryCard : RateValidation.RateCard :=
  { id := 2, contractId := 1, taxonomyCode := "IME.PHY_EXAM.PROF_FEE",
    contractedRate := 1500000, maxUnits := none, isAllInclusive := false,
    effectiveFrom := 100, effectiveTo := none }

/-- The contract's rate-card table for the sample line. -/
def sampleRateCards : List RateValidation.RateCard :=
  [sampleExpiredCard, sampleBoundaryCard]

/-- Per-step arguments for a run of carrier overrides: the `k`-th override
happens at time `k` and reclassifies to the exam code. -/
def sampleOverrideArgs : Nat → Admin.OverrideArgs :=
  fun k => { taxonomyCode := "IME.PHY_EXAM.PROF_FEE",
             billingComponent := "PROF_FEE", time := (k : ℤ) }

/-! ## Helper lemmas -/

theorem startsWithStr_iff (p s : PyStr) :
    startsWithStr s p = true ↔ ∃ t, s = p ++ t := by
  induction p generalizing s with
  | nil =>
      cases s <;> simp [startsWithStr]
  | cons c cs ih =>
      cases s with
      | nil => simp [startsWithStr]
      | cons a as =>
          simp only [startsWithStr, Bool.and_eq_true, decide_eq_true_eq, ih,
            List.cons_append, List.cons.injEq]
          constructor
          · rintro ⟨rfl, t, rfl⟩; exact ⟨t, rfl, rfl⟩
          · rintro ⟨t, rfl, rfl⟩; exact ⟨rfl, t, rfl⟩

theorem containsStr_iff (s pat : PyStr) :
    containsStr s pat = true ↔ ∃ l r, s = l ++ pat ++ r := by
  unfold containsStr
  rw [List.any_eq_true]
  constructor
  · rintro ⟨t, ht, hstart⟩
    rw [List.mem_tails] at ht
    obtain ⟨l, rfl⟩ := ht
    obtain ⟨r, rfl⟩ := (startsWithStr_iff pat t).mp hstart
    exact ⟨l, r, by simp⟩
  · rintro ⟨l, r, rfl⟩
    refine ⟨pat ++ r, ?_, ?_⟩
    · rw [List.mem_tails]
      exact ⟨l, by simp⟩
    · exact (startsWithStr_iff pat (pat ++ r)).mpr ⟨r, rfl⟩

theorem head_insertionSort_min {α : Type} (r : α → α → Prop) [DecidableRel r]
    [IsTotal α r] [IsTrans α r] (l : List α) (x : α)
    (h : (l.insertionSort r).head? = some x) :
    x ∈ l ∧ ∀ y ∈ l, r x y := by
  have hperm := List.perm_insertionSort r l
  have hsorted := List.sorted_insertionSort r l
  cases e : l.insertionSort r with
  | nil => rw [e] at h; exact absurd h (by simp)
  | cons a t =>
      rw [e] at h hperm hsorted
      have hx : a = x := by simpa using h
      subst hx
      refine ⟨hperm.mem_iff.mp (List.mem_cons_self a t), ?_⟩
      intro y hy
      rcases List.mem_cons.mp (hperm.mem_iff.mpr hy) with rfl | hmem
      · rcases IsTotal.total (r := r) y y with hr | hr <;> exact hr
      · exact (List.sorted_cons.mp hsorted).1 y hmem

theorem find?_map_range' {α : Type} (f : Nat → α) (p : α → Bool)
    (len : Nat) :
    ∀ (s j : Nat), s ≤ j → j < s + len →
      (∀ i, s ≤ i → i < j → p (f i) = false) → p (f j) = true →
      ((List.range' s len).map f).find? p = some (f j) := by
  induction len with
  | zero => intro s j h1 h2; omega
  | succ len ih =>
      intro s j h1 h2 hfalse htrue
      rw [List.range'_succ, List.map_cons]
      by_cases hj : j = s
      · subst hj
        rw [List.find?_cons_of_pos _ htrue]
      · rw [List.find?_cons_of_neg _ (by
          rw [hfalse s le_rfl (by omega)]
          simp)]
        exact ih (s + 1) j (by omega) (by omega)
          (fun i hi1 hi2 => hfalse i (by omega) hi2) htrue

theorem filter_map_range' {α : Type} (f : Nat → α) (p : α → Bool)
    (len : Nat) :
    ∀ (s j : Nat), s ≤ j → j < s + len →
      (∀ i, s ≤ i → i < s + len → i ≠ j → p (f i) = false) → p (f j) = true →
      ((List.range' s len).map f).filter p = [f j] := by
  induction len with
  | zero => intro s j h1 h2; omega
  | succ len ih =>
      intro s j h1 h2 hfalse htrue
      rw [List.range'_succ, List.map_cons]
      by_cases hj : j = s
      · subst hj
        rw [List.filter_cons_of_pos htrue]
        have hrest : ((List.range' (j + 1) len).map f).filter p = [] := by
          rw [List.filter_eq_nil_iff]
          intro a ha
          obtain ⟨i, hi, rfl⟩ := List.mem_map.mp ha
          rw [List.mem_range'_1] at hi
          rw [hfalse i (by omega) (by omega) (by omega)]
          simp
        rw [hrest]
      · rw [List.filter_cons_of_neg (by
          rw [hfalse s le_rfl (by omega) (fun h => hj h.symm)]
          simp)]
        exact ih (s + 1) j (by omega) (by omega)
          (fun i hi1 hi2 hne => hfalse i (by omega) (by omega) hne) htrue

theorem find?_overrideKey_ruleAt (sid : Option Nat) (pattern : PyStr)
    (args : Nat → Admin.OverrideArgs) (m : Nat) :
    ((List.range (m + 1)).map
        (Admin.ruleAt sid pattern args (m + 1))).find?
      (Admin.matchesOverrideKey pattern sid) =
    some (Admin.ruleAt sid pattern args (m + 1) m) := by
  rw [List.range_eq_range']
  refine find?_map_range' _ _ (m + 1) 0 m (by omega) (by omega) ?_ ?_
  · intro i _ hi
    simp [Admin.matchesOverrideKey, Admin.ruleAt, show i + 1 ≠ m + 1 by omega]
  · simp [Admin.matchesOverrideKey, Admin.ruleAt]

theorem overrideSeq_eq (sid : Option Nat) (pattern : PyStr)
    (args : Nat → Admin.OverrideArgs) :
    ∀ n, Admin.overrideSeq sid pattern args n =
      { rules := (List.range n).map (Admin.ruleAt sid pattern args n),
        nextId := n } := by
  intro n
  induction n with
  | zero => rfl
  | succ n ih =>
      rw [Admin.overrideSeq, ih]
      cases n with
      | zero =>
          simp [Admin.overrideMapping, Admin.ruleAt, List.range_succ]
      | succ m =>
          simp only [Admin.overrideMapping,
            find?_overrideKey_ruleAt sid pattern args m]
          have hmapmap :
              ((List.range (m + 1)).map
                  (Admin.ruleAt sid pattern args (m + 1))).map
                (fun r => if r.id = (Admin.ruleAt sid pattern args (m + 1) m).id
                  then { r with effectiveTo := some (args (m + 1)).time }
                  else r) =
              (List.range (m + 1)).map
                (Admin.ruleAt sid pattern args (m + 1 + 1)) := by
            rw [List.map_map]
            apply List.map_congr_left
            intro i hi
            rw [List.mem_range] at hi
            by_cases him : i = m
            · subst him
              simp [Admin.ruleAt, show i + 1 ≠ i + 1 + 1 by omega]
            · simp [Admin.ruleAt, him, show i + 1 ≠ m + 1 by omega,
                show i + 1 ≠ m + 1 + 1 by omega]
          rw [hmapmap]
          have hnew : (Admin.ruleAt sid pattern args (m + 1 + 1) (m + 1)) =
              { id := m + 1, supplierId := sid, matchType := "keyword_set",
                matchPattern := pattern,
                taxonomyCode := (args (m + 1)).taxonomyCode,
                billingComponent := (args (m + 1)).billingComponent,
                confidenceWeight := 100, confidenceLabel := "HIGH",
                confirmedBy := "CARRIER_OVERRIDE",
                version := (Admin.ruleAt sid pattern args (m + 1) m).version + 1,
                effectiveFrom := (args (m + 1)).time, effectiveTo := none,
                supersedesRuleId :=
                  some (Admin.ruleAt sid pattern args (m + 1) m).id } := by
            simp [Admin.ruleAt]
          rw [List.range_succ (n := m + 1), List.map_append, List.map_singleton,
            hnew]

theorem chainIds_ruleAt (sid : Option Nat) (pattern : PyStr)
    (args : Nat → Admin.OverrideArgs) (n : Nat) :
    ∀ k fuel, k < n → k ≤ fuel →
      Admin.chainIds ((List.range n).map (Admin.ruleAt sid pattern args n))
        fuel (Admin.ruleAt sid pattern args n k) =
      (List.range (k + 1)).reverse := by
  intro k
  induction k with
  | zero =>
      intro fuel _ _
      cases fuel with
      | zero => simp [Admin.chainIds, Admin.ruleAt, List.range_succ]
      | succ f => simp [Admin.chainIds, Admin.ruleAt, List.range_succ]
  | succ k ih =>
      intro fuel h1 h2
      cases fuel with
      | zero => omega
      | succ f =>
          have hfind : ((List.range n).map
              (Admin.ruleAt sid pattern args n)).find?
                (fun x => decide (x.id = k)) =
              some (Admin.ruleAt sid pattern args n k) := by
            rw [List.range_eq_range']
            refine find?_map_range' _ _ n 0 k (by omega) (by omega) ?_ ?_
            · intro i _ hi
              simp [Admin.ruleAt, show ¬(i = k) by omega]
            · simp [Admin.ruleAt]
          simp only [Admin.chainIds, Admin.ruleAt, Nat.succ_ne_zero,
            if_false, Nat.add_sub_cancel]
          rw [hfind]
          dsimp only
          rw [ih f (by omega) (by omega)]
          simp [List.range_succ, List.reverse_append, Admin.ruleAt]

theorem keywordSet_beq_exactCode :
    (("keyword_set" : String) == "exact_code") = false := by decide

theorem keywordSet_beq_regexPattern :
    (("keyword_set" : String) == "regex_pattern") = false := by decide

theorem keywordSet_beq_keywordSet :
    (("keyword_set" : String) == "keyword_set") = true := by decide

/-! ## Claims -/

/-- C1.  The claim says source (2) — currently-effective global
MappingRules — is tried whenever no supplier-specific rule matches, so a
matching global rule must win before the built-in rules.  But the query in
`Classifier._classify_from_db` filters with
`supplier_id.in_([supplier_id, None])`, SQL `supplier_id IN (:sid, NULL)`,
which under three-valued logic never matches a NULL-supplier row: global
rules are never loaded (and with no supplier given, `IN (NULL)` loads
nothing at all).  Here a currently-effective global rule (weight 0.90)
matches the description by the claim's own match semantics, yet
`_classify_from_db` finds nothing and `classify` falls through past the
global tier to UNRECOGNIZED — with or without a supplier id. -/
theorem c1_global_rules_never_reach_the_scan :
    let globalRule : Classification.MappingRule :=
      { id := 2, supplierId := none, matchType := "keyword_set",
        matchPattern := "exam".data, taxonomyCode := "IME.PHY_EXAM.PROF_FEE",
        billingComponent := "PROF_FEE", confidenceWeight := 90,
        confidenceLabel := "HIGH", confirmedBy := "SYSTEM",
        version := 1, effectiveFrom := 0, effectiveTo := none,
        supersedesRuleId := none }
    let noRegex : PyStr → PyStr → Bool := fun _ _ => false
    let descLower := trimStr (toLowerStr "Annual exam visit".data)
    globalRule.effectiveTo = none ∧
    Classification.ruleMatches noRegex globalRule descLower [] = true ∧
    Classification.classifyFromDb noRegex 0 (some 7) [globalRule]
      descLower [] = none ∧
    Classification.classifyFromDb noRegex 0 none [globalRule]
      descLower [] = none ∧
    (Classification.classify noRegex 0 (some 7) [globalRule] []
        "Annual exam visit".data none).confidence = "UNRECOGNIZED" ∧
    (Classification.classify noRegex 0 (some 7) [globalRule] []
        "Annual exam visit".data none).taxonomyCode = none ∧
    (Classification.classify noRegex 0 (some 7) [globalRule] []
        "Annual exam visit".data none).matchedRuleId = none := by
  decide

/-- C2 (counterexample).  A run whose parse step raises `ParseError`: the
invoice does transition to REVIEW_REQUIRED, the result carries the reason,
and no line items are created — but the final audit trail contains no event
whose `to_status` is REVIEW_REQUIRED, refuting the claim's "an audit event
is written for that transition" (the only event of the run is the one for
the transition to PROCESSING). -/
theorem c2_no_audit_event_for_review_required :
    let st0 : Pipeline.PState :=
      { invoice := { id := 5, status := "SUBMITTED", currentVersion := 1 },
        lineItems := [], auditEvents := [] }
    let run : Pipeline.PState → Pipeline.ParseResult →
        Pipeline.PState × Pipeline.PResult :=
      fun st _ => (st, { invoiceId := 5 })
    let out := Pipeline.processInvoiceSync run
      (.error "Missing required column: amount") st0
    out.1.invoice.status = "REVIEW_REQUIRED" ∧
    out.2.error = some "Missing required column: amount" ∧
    out.1.lineItems = [] ∧
    out.1.auditEvents.all (fun e => !(e.toStatus == some "REVIEW_REQUIRED")) = true := by
  decide

/-- C2 (amended).  On a `ParseError` (or the PDF stub's
`NotImplementedError`) the pipeline marks the invoice REVIEW_REQUIRED, the
returned summary carries the human-readable reason, and no LineItem rows
are created — but the only audit event the run appends is the one for the
transition to PROCESSING; no audit event is written for the transition to
REVIEW_REQUIRED. -/
theorem c2_parse_error_path
    (runPipeline : Pipeline.PState → Pipeline.ParseResult →
      Pipeline.PState × Pipeline.PResult)
    (reason : String) (st : Pipeline.PState) :
    let out := Pipeline.processInvoiceSync runPipeline (.error reason) st
    out.1.invoice.status = "REVIEW_REQUIRED" ∧
    out.2.error = some reason ∧
    out.1.lineItems = st.lineItems ∧
    out.1.auditEvents = st.auditEvents ++
      [Pipeline.statusChangedEvent st.invoice.id st.invoice.status "PROCESSING"] ∧
    out.1.auditEvents.filter (fun e => e.toStatus == some "REVIEW_REQUIRED") =
      st.auditEvents.filter (fun e => e.toStatus == some "REVIEW_REQUIRED") := by
  refine ⟨rfl, rfl, rfl, rfl, ?_⟩
  simp [Pipeline.processInvoiceSync, Pipeline.failInvoice,
    Pipeline.statusChangedEvent, List.filter_append]

/-- C3.  `RateValidator._check_amount`: with
`expected = round_half_even(quantity × contracted_rate, 2)` and the $0.02
tolerance (2 cents), the check yields PASS/INFO exactly when
`|billed − expected| ≤ tolerance` (so a difference of exactly the tolerance
passes), FAIL/ERROR with `ACCEPT_REDUCTION` and both values populated
exactly when `billed > expected + tolerance` (any difference strictly above
the tolerance), and WARNING exactly when `billed < expected − tolerance`;
the three outcomes are mutually exclusive and exhaustive. -/
theorem c3_amount_check (li : RateValidation.LineItem)
    (card : RateValidation.RateCard) :
    (|li.rawAmount - roundHalfEvenDiv (li.rawQuantity * card.contractedRate) 1000000| ≤
        RateValidation.AMOUNT_TOLERANCE ↔
      (RateValidation.checkAmount li card).status = "PASS" ∧
      (RateValidation.checkAmount li card).severity = "INFO" ∧
      (RateValidation.checkAmount li card).requiredAction = "NONE") ∧
    (RateValidation.AMOUNT_TOLERANCE <
        li.rawAmount - roundHalfEvenDiv (li.rawQuantity * card.contractedRate) 1000000 ↔
      (RateValidation.checkAmount li card).status = "FAIL" ∧
      (RateValidation.checkAmount li card).severity = "ERROR" ∧
      (RateValidation.checkAmount li card).requiredAction = "ACCEPT_REDUCTION" ∧
      (RateValidation.checkAmount li card).expectedValue =
        some (roundHalfEvenDiv (li.rawQuantity * card.contractedRate) 1000000) ∧
      (RateValidation.checkAmount li card).actualValue = some li.rawAmount) ∧
    (li.rawAmount - roundHalfEvenDiv (li.rawQuantity * card.contractedRate) 1000000 <
        -RateValidation.AMOUNT_TOLERANCE ↔
      (RateValidation.checkAmount li card).status = "WARNING" ∧
      (RateValidation.checkAmount li card).severity = "WARNING") ∧
    ((RateValidation.checkAmount li card).status = "PASS" ∨
     (RateValidation.checkAmount li card).status = "FAIL" ∨
     (RateValidation.checkAmount li card).status = "WARNING") := by
  simp only [RateValidation.checkAmount, RateValidation.AMOUNT_TOLERANCE]
  split_ifs with h1 h2 <;> simp_all [abs_le] <;> omega

/-- C3 (witness).  A contracted rate of $150.0000 over 1.5000 units gives
expected $225.00; a billed amount of $225.02 (difference exactly the
tolerance) passes, and $225.03 (strictly above) fails with
`ACCEPT_REDUCTION`. -/
theorem c3_amount_check_witness :
    (RateValidation.checkAmount
        { taxonomyCode := some "IME.PHY_EXAM.PROF_FEE",
          billingComponent := some "PROF_FEE", rawAmount := 22502,
          rawQuantity := 15000, rawUnit := none, serviceDate := none }
        { id := 1, contractId := 1, taxonomyCode := "IME.PHY_EXAM.PROF_FEE",
          contractedRate := 1500000, maxUnits := none,
          isAllInclusive := false, effectiveFrom := 0,
          effectiveTo := none }).status = "PASS" ∧
    (RateValidation.checkAmount
        { taxonomyCode := some "IME.PHY_EXAM.PROF_FEE",
          billingComponent := some "PROF_FEE", rawAmount := 22503,
          rawQuantity := 15000, rawUnit := none, serviceDate := none }
        { id := 1, contractId := 1, taxonomyCode := "IME.PHY_EXAM.PROF_FEE",
          contractedRate := 1500000, maxUnits := none,
          isAllInclusive := false, effectiveFrom := 0,
          effectiveTo := none }).status = "FAIL" := by
  refine ⟨((c3_amount_check
      { taxonomyCode := some "IME.PHY_EXAM.PROF_FEE",
        billingComponent := some "PROF_FEE", rawAmount := 22502,
        rawQuantity := 15000, rawUnit := none, serviceDate := none }
      { id := 1, contractId := 1, taxonomyCode := "IME.PHY_EXAM.PROF_FEE",
        contractedRate := 1500000, maxUnits := none, isAllInclusive := false,
        effectiveFrom := 0, effectiveTo := none }).1.mp (by decide)).1,
    ((c3_amount_check
      { taxonomyCode := some "IME.PHY_EXAM.PROF_FEE",
        billingComponent := some "PROF_FEE", rawAmount := 22503,
        rawQuantity := 15000, rawUnit := none, serviceDate := none }
      { id := 1, contractId := 1, taxonomyCode := "IME.PHY_EXAM.PROF_FEE",
        contractedRate := 1500000, maxUnits := none, isAllInclusive := false,
        effectiveFrom := 0, effectiveTo := none }).2.1.mp (by decide)).1⟩

/-- C4.  `approve_carrier_invoice`: any status other than
PENDING_CARRIER_REVIEW or CARRIER_REVIEWING is rejected with a typed 409
conflict and no state change; on success every OPEN exception on the
invoice's lines becomes WAIVED with resolution action WAIVED (stamped with
resolver and time), every line whose status is in
{VALIDATED, OVERRIDE, RESOLVED, EXCEPTION} becomes APPROVED while every
other line — in particular a DENIED one — keeps its status, and the invoice
becomes APPROVED. -/
theorem c4_approve_invoice (inv : Carrier.CInvoice) (notes : Option String)
    (now : ℤ) (uid : Nat) :
    (¬(inv.status = "PENDING_CARRIER_REVIEW" ∨ inv.status = "CARRIER_REVIEWING") →
      Carrier.approveInvoice inv notes now uid =
        .error "409: invoice must be in PENDING_CARRIER_REVIEW or CARRIER_REVIEWING") ∧
    ((inv.status = "PENDING_CARRIER_REVIEW" ∨ inv.status = "CARRIER_REVIEWING") →
      ∃ inv2, Carrier.approveInvoice inv notes now uid = .ok inv2 ∧
        inv2.status = "APPROVED" ∧
        inv2.lines.length = inv.lines.length ∧
        (∀ k oldLi, inv.lines.get? k = some oldLi →
          ∃ newLi, inv2.lines.get? k = some newLi ∧
            newLi.id = oldLi.id ∧
            (Carrier.approvableStatuses.contains oldLi.status = true →
              newLi.status = "APPROVED") ∧
            (Carrier.approvableStatuses.contains oldLi.status = false →
              newLi.status = oldLi.status) ∧
            (∀ j e, oldLi.exceptions.get? j = some e →
              ∃ e2, newLi.exceptions.get? j = some e2 ∧
                (e.status = "OPEN" →
                  e2.status = "WAIVED" ∧
                  e2.resolutionAction = some "WAIVED" ∧
                  e2.resolvedAt = some now ∧
                  e2.resolvedByUserId = some uid) ∧
                (e.status ≠ "OPEN" → e2 = e)))) := by
  constructor
  · intro hno
    rw [not_or] at hno
    unfold Carrier.approveInvoice
    have hcond : (inv.status == "PENDING_CARRIER_REVIEW" ||
        inv.status == "CARRIER_REVIEWING") = false := by
      simp [hno.1, hno.2]
    rw [hcond]
    rfl
  · intro hyes
    unfold Carrier.approveInvoice
    have hcond : (inv.status == "PENDING_CARRIER_REVIEW" ||
        inv.status == "CARRIER_REVIEWING") = true := by
      rcases hyes with h | h <;> simp [h]
    rw [hcond]
    refine ⟨_, rfl, rfl, by simp, ?_⟩
    intro k oldLi hk
    have hline :
        ((inv.lines.map (fun li =>
            { li with exceptions :=
                li.exceptions.map (Carrier.waiveIfOpen notes now uid) })).map
          (fun li => if Carrier.approvableStatuses.contains li.status then
              { li with status := "APPROVED" } else li)).get? k =
        some (if Carrier.approvableStatuses.contains oldLi.status then
            { oldLi with
              status := "APPROVED",
              exceptions :=
                oldLi.exceptions.map (Carrier.waiveIfOpen notes now uid) }
          else
            { oldLi with
              exceptions :=
                oldLi.exceptions.map (Carrier.waiveIfOpen notes now uid) }) := by
      rw [List.get?_map, List.get?_map, hk]
      rfl
    refine ⟨_, hline, ?_, ?_, ?_, ?_⟩
    · split_ifs <;> rfl
    · intro hst
      simp at hst
      simp [hst]
    · intro hst
      simp at hst
      simp [hst]
    · intro j e he
      have hexc :
          (if Carrier.approvableStatuses.contains oldLi.status then
              { oldLi with
                status := "APPROVED",
                exceptions :=
                  oldLi.exceptions.map (Carrier.waiveIfOpen notes now uid) }
            else
              { oldLi with
                exceptions :=
                  oldLi.exceptions.map
                    (Carrier.waiveIfOpen notes now uid) } :
            Carrier.CLine).exceptions =
          oldLi.exceptions.map (Carrier.waiveIfOpen notes now uid) := by
        split_ifs <;> rfl
      refine ⟨Carrier.waiveIfOpen notes now uid e, ?_, ?_, ?_⟩
      · rw [hexc, List.get?_map, he]
        rfl
      · intro hopen
        unfold Carrier.waiveIfOpen
        simp [hopen]
      · intro hopen
        unfold Carrier.waiveIfOpen
        simp [beq_eq_false_iff_ne.mpr hopen]

/-- C4 (witness).  The sample invoice in PENDING_CARRIER_REVIEW goes through
`approve_carrier_invoice`; the theorem's success branch applies. -/
theorem c4_approve_invoice_witness :
    (sampleApproveInvoice.status = "PENDING_CARRIER_REVIEW" ∨
      sampleApproveInvoice.status = "CARRIER_REVIEWING") ∧
    (∃ inv2, Carrier.approveInvoice sampleApproveInvoice none 7 9 = .ok inv2 ∧
      inv2.status = "APPROVED" ∧
      inv2.lines.length = sampleApproveInvoice.lines.length ∧
      (∀ k oldLi, sampleApproveInvoice.lines.get? k = some oldLi →
        ∃ newLi, inv2.lines.get? k = some newLi ∧
          newLi.id = oldLi.id ∧
          (Carrier.approvableStatuses.contains oldLi.status = true →
            newLi.status = "APPROVED") ∧
          (Carrier.approvableStatuses.contains oldLi.status = false →
            newLi.status = oldLi.status) ∧
          (∀ j e, oldLi.exceptions.get? j = some e →
            ∃ e2, newLi.exceptions.get? j = some e2 ∧
              (e.status = "OPEN" →
                e2.status = "WAIVED" ∧
                e2.resolutionAction = some "WAIVED" ∧
                e2.resolvedAt = some 7 ∧
                e2.resolvedByUserId = some 9) ∧
              (e.status ≠ "OPEN" → e2 = e)))) :=
  ⟨Or.inl rfl, (c4_approve_invoice sampleApproveInvoice none 7 9).2 (Or.inl rfl)⟩

/-- C5 (counterexample).  The pattern `multi-specialty,ime` against the
description `multispecialty ime panel`: under the claimed semantics (the
hyphen/period-stripped form of a keyword also counts) the rule matches, and
the built-in keyword matcher agrees — but `Classifier._rule_matches`
requires every keyword verbatim, so the persisted MappingRule does not
match. -/
theorem c5_db_keyword_rule_lacks_stripped_fallback :
    let rule : Classification.MappingRule :=
      { id := 3, supplierId := none, matchType := "keyword_set",
        matchPattern := "multi-specialty,ime".data,
        taxonomyCode := "IME.MULTI_SPECIALTY.PROF_FEE",
        billingComponent := "PROF_FEE", confidenceWeight := 80,
        confidenceLabel := "MEDIUM", confirmedBy := "SYSTEM",
        version := 1, effectiveFrom := 0, effectiveTo := none,
        supersedesRuleId := none }
    let descLower := trimStr (toLowerStr "Multispecialty IME panel".data)
    specKeywordSetMatch "multi-specialty,ime".data descLower = true ∧
    Classification.builtinKeywordHolds "multi-specialty,ime".data descLower = true ∧
    Classification.ruleMatches (fun _ _ => false) rule descLower [] = false := by
  decide

/-- C5 (amended).  Keyword-set semantics differ by rule source: a built-in
`keyword_set` rule matches iff every keyword (split on comma or pipe) occurs
in the lowercased description either verbatim or with its hyphens and
periods removed, while a persisted `keyword_set` MappingRule matches iff
every non-empty comma-separated keyword occurs verbatim as a substring — the
stripped-form fallback exists only for built-in rules. -/
theorem c5_keyword_semantics_by_source
    (regexSearch : PyStr → PyStr → Bool)
    (rule : Classification.MappingRule) (descLower codeLower : PyStr)
    (h : rule.matchType = "keyword_set") :
    (Classification.ruleMatches regexSearch rule descLower codeLower = true ↔
      ∀ kw ∈ (splitOnComma (trimStr (toLowerStr rule.matchPattern))).map trimStr,
        kw ≠ [] → ∃ l r, descLower = l ++ kw ++ r) ∧
    (Classification.builtinKeywordHolds rule.matchPattern descLower = true ↔
      ∀ kw ∈ Classification.builtinKeywords rule.matchPattern,
        (∃ l r, descLower = l ++ kw ++ r) ∨
        (∃ l r, descLower = l ++ stripDotsDashes kw ++ r)) := by
  constructor
  · unfold Classification.ruleMatches
    rw [h]
    simp only [keywordSet_beq_exactCode, keywordSet_beq_regexPattern,
      keywordSet_beq_keywordSet, Bool.false_eq_true, if_false, if_true,
      List.all_eq_true, Bool.or_eq_true, List.isEmpty_iff, containsStr_iff]
    constructor
    · intro hall kw hkw hne
      rcases hall kw hkw with hempty | hc
      · exact absurd hempty hne
      · exact hc
    · intro hall kw hkw
      by_cases hne : kw = []
      · exact Or.inl hne
      · exact Or.inr (hall kw hkw hne)
  · unfold Classification.builtinKeywordHolds
    simp only [List.all_eq_true, Bool.or_eq_true, containsStr_iff]

/-- C5 (witness).  Instantiating the amended semantics on the built-in rule
pattern `records review,no exam` and the description
`records review, no exam performed`, which the DB matcher accepts because
both keywords occur verbatim. -/
theorem c5_keyword_semantics_by_source_witness :
    ({ id := 4, supplierId := none, matchType := "keyword_set",
       matchPattern := "records review,no exam".data,
       taxonomyCode := "IME.RECORDS_REVIEW.PROF_FEE",
       billingComponent := "PROF_FEE", confidenceWeight := 85,
       confidenceLabel := "HIGH", confirmedBy := "SYSTEM",
       version := 1, effectiveFrom := 0, effectiveTo := none,
       supersedesRuleId := none } : Classification.MappingRule).matchType =
      "keyword_set" ∧
    (Classification.ruleMatches (fun _ _ => false)
        { id := 4, supplierId := none, matchType := "keyword_set",
          matchPattern := "records review,no exam".data,
          taxonomyCode := "IME.RECORDS_REVIEW.PROF_FEE",
          billingComponent := "PROF_FEE", confidenceWeight := 85,
          confidenceLabel := "HIGH", confirmedBy := "SYSTEM",
          version := 1, effectiveFrom := 0, effectiveTo := none,
          supersedesRuleId := none }
        "records review, no exam performed".data [] = true ↔
      ∀ kw ∈ (splitOnComma (trimStr (toLowerStr
          "records review,no exam".data))).map trimStr,
        kw ≠ [] → ∃ l r,
          ("records review, no exam performed".data : PyStr) = l ++ kw ++ r) := by
  exact ⟨rfl, (c5_keyword_semantics_by_source (fun _ _ => false) _
    "records review, no exam performed".data [] rfl).1⟩

/-- C6.  Rate-card selection for a classified line: a returned card is one
of the contract's cards, is eligible (contract and taxonomy match,
`effective_from ≤ service_date ≤ (effective_to or ∞)` with `service_date`
defaulting to today), and has the greatest `effective_from` among all
eligible cards; when no card is eligible the validator emits exactly one
FAIL finding with `required_action = REQUEST_RECLASSIFICATION`; and
eligibility is characterised so that a card effective exactly on the
service date qualifies while one whose `effective_to` precedes the service
date does not. -/
theorem c6_rate_card_selection (cards : List RateValidation.RateCard)
    (today : ℤ) (li : RateValidation.LineItem) (contractId : Nat)
    (tc : String) (htc : li.taxonomyCode = some tc) :
    (∀ card, RateValidation.findRateCard cards today li contractId = some card →
      card ∈ cards ∧
      RateValidation.cardEligible contractId li.taxonomyCode
        (li.serviceDate.getD today) card = true ∧
      ∀ c ∈ cards, RateValidation.cardEligible contractId li.taxonomyCode
          (li.serviceDate.getD today) c = true →
        c.effectiveFrom ≤ card.effectiveFrom) ∧
    (RateValidation.findRateCard cards today li contractId = none →
      (∀ c ∈ cards, RateValidation.cardEligible contractId li.taxonomyCode
          (li.serviceDate.getD today) c = false) ∧
      RateValidation.validate cards today li contractId =
        [{ status := "FAIL", severity := "ERROR",
           message := "no contracted rate found for this service",
           requiredAction := "REQUEST_RECLASSIFICATION" }]) ∧
    (∀ c : RateValidation.RateCard,
      RateValidation.cardEligible contractId li.taxonomyCode
          (li.serviceDate.getD today) c = true ↔
        (c.contractId = contractId ∧ c.taxonomyCode = tc ∧
         c.effectiveFrom ≤ li.serviceDate.getD today ∧
         (c.effectiveTo = none ∨
          ∃ t, c.effectiveTo = some t ∧ li.serviceDate.getD today ≤ t))) := by
  refine ⟨?_, ?_, ?_⟩
  · intro card hfind
    unfold RateValidation.findRateCard at hfind
    obtain ⟨hmem, hall⟩ := head_insertionSort_min RateValidation.cardBefore _ card hfind
    refine ⟨List.mem_of_mem_filter hmem, List.of_mem_filter hmem, ?_⟩
    intro c hc helig
    exact hall c (List.mem_filter.mpr ⟨hc, helig⟩)
  · intro hnone
    unfold RateValidation.findRateCard at hnone
    rw [List.head?_eq_none_iff] at hnone
    have hempty : cards.filter (RateValidation.cardEligible contractId
        li.taxonomyCode (li.serviceDate.getD today)) = [] := by
      have hp := List.perm_insertionSort RateValidation.cardBefore
        (cards.filter (RateValidation.cardEligible contractId
          li.taxonomyCode (li.serviceDate.getD today)))
      rw [hnone] at hp
      exact hp.symm.eq_nil
    constructor
    · intro c hc
      cases helig : RateValidation.cardEligible contractId li.taxonomyCode
          (li.serviceDate.getD today) c with
      | false => rfl
      | true =>
          exfalso
          have hmem : c ∈ cards.filter (RateValidation.cardEligible contractId
              li.taxonomyCode (li.serviceDate.getD today)) :=
            List.mem_filter.mpr ⟨hc, helig⟩
          rw [hempty] at hmem
          exact absurd hmem (List.not_mem_nil c)
    · have hfind : RateValidation.findRateCard cards today li contractId = none := by
        unfold RateValidation.findRateCard
        rw [List.head?_eq_none_iff]
        rw [hempty]
        rfl
      simp [RateValidation.validate, htc, hfind]
  · intro c
    unfold RateValidation.cardEligible
    rw [htc]
    rcases hto : c.effectiveTo with _ | t <;>
      simp [beq_iff_eq, and_assoc]

/-- C6 (witness).  On the sample line (service date day 100) against a card
expired on day 99 and a card effective exactly on day 100: selection picks
the day-100 card, the expired card is ineligible, and the eligibility
characterisation instantiates. -/
theorem c6_rate_card_selection_witness :
    sampleRateLine.taxonomyCode = some "IME.PHY_EXAM.PROF_FEE" ∧
    RateValidation.findRateCard sampleRateCards 50 sampleRateLine 1 =
      some sampleBoundaryCard ∧
    RateValidation.cardEligible 1 sampleRateLine.taxonomyCode 100
      sampleBoundaryCard = true ∧
    RateValidation.cardEligible 1 sampleRateLine.taxonomyCode 100
      sampleExpiredCard = false ∧
    (RateValidation.cardEligible 1 sampleRateLine.taxonomyCode
        (sampleRateLine.serviceDate.getD 50) sampleBoundaryCard = true ↔
      (sampleBoundaryCard.contractId = 1 ∧
       sampleBoundaryCard.taxonomyCode = "IME.PHY_EXAM.PROF_FEE" ∧
       sampleBoundaryCard.effectiveFrom ≤ sampleRateLine.serviceDate.getD 50 ∧
       (sampleBoundaryCard.effectiveTo = none ∨
        ∃ t, sampleBoundaryCard.effectiveTo = some t ∧
          sampleRateLine.serviceDate.getD 50 ≤ t))) :=
  ⟨rfl, by decide, by decide, by decide,
   (c6_rate_card_selection sampleRateCards 50 sampleRateLine 1
     "IME.PHY_EXAM.PROF_FEE" rfl).2.2 sampleBoundaryCard⟩

/-- C7.  `resubmit_invoice` does accept an invoice in SUPPLIER_RESPONDED at
its own guard, but it delegates to `upload_invoice_file`, whose guard admits
only DRAFT and REVIEW_REQUIRED — so a resubmission from SUPPLIER_RESPONDED
always ends in the upload handler's 409 conflict and is never processed,
while a resubmission from REVIEW_REQUIRED increments `current_version`,
creates the new `InvoiceVersion` and processes. -/
theorem c7_resubmit_from_supplier_responded_conflicts :
    let pipelineId : Supplier.SInvoice → Supplier.SInvoice := fun inv => inv
    Supplier.resubmitInvoice pipelineId
      { id := 1, status := "SUPPLIER_RESPONDED", currentVersion := 1,
        versionNumbers := [1] } =
      .error "409: only DRAFT or REVIEW_REQUIRED invoices accept new uploads" ∧
    Supplier.resubmitInvoice pipelineId
      { id := 2, status := "REVIEW_REQUIRED", currentVersion := 1,
        versionNumbers := [1] } =
      .ok { id := 2, status := "SUBMITTED", currentVersion := 2,
            versionNumbers := [1, 2] } := by
  exact ⟨rfl, rfl⟩

/-- C8.  Guideline evaluation is total: `_evaluate` is a function of the
(guideline, line item) pair; an unknown `rule_type` yields no finding (the
source only logs a warning), a handler exception (the `.error` outcome of
the `try` body) is converted into the single WARNING finding asking for
carrier review, and a normal handler outcome is returned as is — so
evaluation never propagates an exception out of the validator. -/
theorem c8_guideline_evaluation_total (g : GuidelineValidation.Guideline)
    (li : RateValidation.LineItem) :
    (GuidelineValidation.knownRuleTypes.contains g.ruleType = false →
      GuidelineValidation.evaluate g li = none) ∧
    (∀ e, GuidelineValidation.evaluateInner g li = .error e →
      GuidelineValidation.evaluate g li =
        some { guidelineId := some g.id, status := "WARNING",
               severity := "WARNING",
               message := "guideline check could not be evaluated; carrier review required",
               requiredAction := "NONE" }) ∧
    (∀ r, GuidelineValidation.evaluateInner g li = .ok r →
      GuidelineValidation.evaluate g li = r) := by
  refine ⟨?_, ?_, ?_⟩
  · intro hunknown
    simp only [GuidelineValidation.knownRuleTypes, List.contains_cons,
      List.contains_nil, Bool.or_eq_false_iff] at hunknown
    obtain ⟨h1, h2, h3, h4, h5, -⟩ := hunknown
    unfold GuidelineValidation.evaluate GuidelineValidation.evaluateInner
    rw [h1, h2, h3, h4, h5]
    rfl
  · intro e herr
    unfold GuidelineValidation.evaluate
    rw [herr]
  · intro r hok
    unfold GuidelineValidation.evaluate
    rw [hok]

/-- C8 (witness).  A guideline of the unknown rule type `percentage_cap`
yields no finding, and a `billing_increment` guideline whose zero increment
makes the handler raise yields exactly the WARNING finding. -/
theorem c8_guideline_evaluation_total_witness :
    GuidelineValidation.knownRuleTypes.contains
      sampleUnknownGuideline.ruleType = false ∧
    GuidelineValidation.evaluate sampleUnknownGuideline sampleGuidelineLine = none ∧
    GuidelineValidation.evaluateInner sampleZeroIncrementGuideline
      sampleGuidelineLine = .error () ∧
    GuidelineValidation.evaluate sampleZeroIncrementGuideline
        sampleGuidelineLine =
      some { guidelineId := some 22, status := "WARNING",
             severity := "WARNING",
             message := "guideline check could not be evaluated; carrier review required",
             requiredAction := "NONE" } :=
  ⟨by decide,
   (c8_guideline_evaluation_total sampleUnknownGuideline
     sampleGuidelineLine).1 (by decide),
   rfl,
   (c8_guideline_evaluation_total sampleZeroIncrementGuideline
     sampleGuidelineLine).2.1 () rfl⟩

/-- C9.  Carrier mapping overrides form an immutable chain: starting from a
fresh table, after any sequence of `n ≥ 1` overrides of the same
`(supplier, pattern, keyword_set)` mapping, the table holds exactly `n`
rules (ids 0..n-1 in creation order), exactly one of them is still active
(`effective_to` unset) — the last one, carrying `confirmed_by =
CARRIER_OVERRIDE`, `confidence_weight = 1.0` (scaled 100),
`confidence_label = HIGH` and `version = n`, the history length — and
walking its `supersedes_rule_id` chain visits every rule of the history,
newest to oldest. -/
theorem c9_override_chain (sid : Option Nat) (pattern : PyStr)
    (args : Nat → Admin.OverrideArgs) (n : Nat) (hn : 1 ≤ n) :
    (Admin.overrideSeq sid pattern args n).rules.length = n ∧
    (Admin.overrideSeq sid pattern args n).rules.map (fun r => r.id) =
      List.range n ∧
    (Admin.overrideSeq sid pattern args n).rules.filter
        (fun r => decide (r.effectiveTo = none)) =
      [Admin.ruleAt sid pattern args n (n - 1)] ∧
    (Admin.ruleAt sid pattern args n (n - 1)).version = n ∧
    (Admin.ruleAt sid pattern args n (n - 1)).confidenceWeight = 100 ∧
    (Admin.ruleAt sid pattern args n (n - 1)).confidenceLabel = "HIGH" ∧
    (Admin.ruleAt sid pattern args n (n - 1)).confirmedBy =
      "CARRIER_OVERRIDE" ∧
    (Admin.ruleAt sid pattern args n (n - 1)).supplierId = sid ∧
    (Admin.ruleAt sid pattern args n (n - 1)).matchPattern = pattern ∧
    Admin.chainIds (Admin.overrideSeq sid pattern args n).rules n
      (Admin.ruleAt sid pattern args n (n - 1)) = (List.range n).reverse := by
  obtain ⟨m, rfl⟩ : ∃ m, n = m + 1 := ⟨n - 1, by omega⟩
  rw [overrideSeq_eq sid pattern args (m + 1)]
  have hsub : m + 1 - 1 = m := by omega
  rw [hsub]
  refine ⟨by simp, ?_, ?_, by simp [Admin.ruleAt], rfl, rfl, rfl, rfl, rfl, ?_⟩
  · rw [List.map_map]
    have hcomp : ((fun r : Classification.MappingRule => r.id) ∘
        Admin.ruleAt sid pattern args (m + 1)) = fun k => k := by
      funext k; rfl
    rw [hcomp, List.map_id']
  · rw [List.range_eq_range']
    refine filter_map_range' _ _ (m + 1) 0 m (by omega) (by omega) ?_ ?_
    · intro i _ hi hne
      simp [Admin.ruleAt, show i + 1 ≠ m + 1 by omega]
    · simp [Admin.ruleAt]
  · exact chainIds_ruleAt sid pattern args (m + 1) m (m + 1) (by omega)
      (by omega)

/-- C9 (witness).  Three successive overrides of the same pattern for
supplier 7: three rules, ids 0,1,2, the last one active with version 3, and
the supersedes chain walks 2 → 1 → 0. -/
theorem c9_override_chain_witness :
    1 ≤ 3 ∧
    ((Admin.overrideSeq (some 7) "independent medical examination".data
        sampleOverrideArgs 3).rules.length = 3 ∧
     (Admin.overrideSeq (some 7) "independent medical examination".data
        sampleOverrideArgs 3).rules.map (fun r => r.id) = List.range 3 ∧
     (Admin.overrideSeq (some 7) "independent medical examination".data
        sampleOverrideArgs 3).rules.filter
          (fun r => decide (r.effectiveTo = none)) =
       [Admin.ruleAt (some 7) "independent medical examination".data
          sampleOverrideArgs 3 2] ∧
     (Admin.ruleAt (some 7) "independent medical examination".data
        sampleOverrideArgs 3 2).version = 3 ∧
     (Admin.ruleAt (some 7) "independent medical examination".data
        sampleOverrideArgs 3 2).confidenceWeight = 100 ∧
     (Admin.ruleAt (some 7) "independent medical examination".data
        sampleOverrideArgs 3 2).confidenceLabel = "HIGH" ∧
     (Admin.ruleAt (some 7) "independent medical examination".data
        sampleOverrideArgs 3 2).confirmedBy = "CARRIER_OVERRIDE" ∧
     (Admin.ruleAt (some 7) "independent medical examination".data
        sampleOverrideArgs 3 2).supplierId = some 7 ∧
     (Admin.ruleAt (some 7) "independent medical examination".data
        sampleOverrideArgs 3 2).matchPattern =
       "independent medical examination".data ∧
     Admin.chainIds (Admin.overrideSeq (some 7)
        "independent medical examination".data sampleOverrideArgs 3).rules 3
       (Admin.ruleAt (some 7) "independent medical examination".data
          sampleOverrideArgs 3 2) = (List.range 3).reverse) :=
  ⟨by decide,
   c9_override_chain (some 7) "independent medical examination".data
     sampleOverrideArgs 3 (by decide)⟩

/-- C10.  For a line whose classification comes back UNRECOGNIZED,
`_process_line` records exactly one CLASSIFICATION ValidationResult
(FAIL/ERROR with `REQUEST_RECLASSIFICATION`), exactly one OPEN
ExceptionRecord, sets the line status to EXCEPTION and its
`mapping_confidence` to the string "LOW", and returns without invoking rate
or guideline validation — the outcome is the same for every pair of
validator functions, and carries no RATE or GUIDELINE rows. -/
theorem c10_unrecognized_line (cls : Classification.ClassificationResult)
    (rateValidate : RateValidation.LineItem →
      List RateValidation.RateValidationResult)
    (guidelineValidate : RateValidation.LineItem →
      List GuidelineValidation.GuidelineValidationResult)
    (invId ver : Nat) (raw : Pipeline.RawLineItem)
    (h : cls.confidence = "UNRECOGNIZED") :
    Pipeline.processLine cls rateValidate guidelineValidate invId ver raw =
      { line :=
          { invoiceId := invId,
            invoiceVersion := ver,
            lineNumber := raw.lineNumber,
            status := "EXCEPTION",
            rawDescription := raw.rawDescription,
            rawCode := raw.rawCode,
            rawAmount := raw.rawAmount,
            rawQuantity := raw.rawQuantity,
            rawUnit := raw.rawUnit,
            claimNumber := raw.claimNumber,
            serviceDate := raw.serviceDate,
            taxonomyCode := cls.taxonomyCode,
            billingComponent := cls.billingComponent,
            mappingConfidence := some "LOW",
            mappingRuleId := cls.matchedRuleId,
            expectedAmount := none },
        validationResults :=
          [{ validationType := "CLASSIFICATION",
             status := "FAIL",
             severity := "ERROR",
             requiredAction := "REQUEST_RECLASSIFICATION" }],
        exceptionRecords := [{ status := "OPEN" }],
        errorCount := 1,
        warningCount := 0,
        expectedAmount := 0 } ∧
    ∀ v ∈ (Pipeline.processLine cls rateValidate guidelineValidate invId ver
        raw).validationResults,
      v.validationType ≠ "RATE" ∧ v.validationType ≠ "GUIDELINE" := by
  unfold Pipeline.processLine
  rw [h]
  simp

/-- C10 (witness).  A concrete unclassifiable line through
`_process_line` with the (unused) empty validators. -/
theorem c10_unrecognized_line_witness :
    ({ taxonomyCode := none, billingComponent := none,
       confidence := "UNRECOGNIZED", confidenceWeight := 0,
       matchType := none, matchedRuleId := none } :
        Classification.ClassificationResult).confidence = "UNRECOGNIZED" ∧
    Pipeline.processLine
        { taxonomyCode := none, billingComponent := none,
          confidence := "UNRECOGNIZED", confidenceWeight := 0,
          matchType := none, matchedRuleId := none }
        (fun _ => []) (fun _ => []) 5 1
        { lineNumber := 1, rawDescription := "Completely unknown service".data,
          rawAmount := 10000, rawQuantity := 10000 } =
      { line :=
          { invoiceId := 5,
            invoiceVersion := 1,
            lineNumber := 1,
            status := "EXCEPTION",
            rawDescription := "Completely unknown service".data,
            rawCode := none,
            rawAmount := 10000,
            rawQuantity := 10000,
            rawUnit := none,
            claimNumber := none,
            serviceDate := none,
            taxonomyCode := none,
            billingComponent := none,
            mappingConfidence := some "LOW",
            mappingRuleId := none,
            expectedAmount := none },
        validationResults :=
          [{ validationType := "CLASSIFICATION",
             status := "FAIL",
             severity := "ERROR",
             requiredAction := "REQUEST_RECLASSIFICATION" }],
        exceptionRecords := [{ status := "OPEN" }],
        errorCount := 1,
        warningCount := 0,
        expectedAmount := 0 } := by
  exact ⟨rfl,
    (c10_unrecognized_line _ (fun _ => []) (fun _ => []) 5 1 _ rfl).1⟩

end ClaimsEbilling
